import Mathlib

/-!
Verification development for the UpCoach habit-success prediction pipeline
(`services/ml/models/feature_engineering.py` and
`services/ml/models/habit_success_predictor.py`).

Conventions of the shallow embedding:
* Timestamps are minutes since the Unix epoch, as integers; the Python
  `timedelta.days` is floor division by 1440, `datetime.hour` is the hour
  component, `datetime.weekday()` counts Monday = 0 (1970-01-01 was a
  Thursday, weekday 3).
* Python floats are modelled by exact rationals.  The two transcendental
  operations the source uses (natural logarithm inside the Shannon-entropy
  feature, square root inside standard deviations and Pearson correlation)
  are passed in as explicit function parameters `qlog` and `qsqrt`; no
  theorem below depends on their values, because every claim under
  verification only exercises code paths on which those features are either
  constant defaults or never read.
* A Python dict of named float features is an association list
  `List (String × ℚ)` in insertion order; `dict.update` overwrites existing
  keys in place and appends new keys, exactly as in CPython.
-/

namespace UpCoach

/-- `timedelta.days` of a difference of `m` minutes: floor division by 1440. -/
def tdDays (m : ℤ) : ℤ := Int.fdiv m 1440

/-- Hour component of a timestamp given in minutes since the epoch. -/
def tsHour (t : ℤ) : ℤ := Int.fmod (Int.fdiv t 60) 24

/-- Minute component of a timestamp given in minutes since the epoch. -/
def tsMinute (t : ℤ) : ℤ := Int.fmod t 60

/-- Python `datetime.weekday()`: Monday = 0; 1970-01-01 was a Thursday. -/
def tsWeekday (t : ℤ) : ℤ := Int.fmod (Int.fdiv t 1440 + 3) 7

/-- `datetime.date()` of a timestamp, as the day number since the epoch. -/
def tsDate (t : ℤ) : ℤ := Int.fdiv t 1440

/-- A feature dictionary: Python `Dict[str, float]` in insertion order. -/
abbrev FeatureDict := List (String × ℚ)

/-- Lookup of a key, `d.get(k)` returning `None` when absent. -/
def dictGet? (d : FeatureDict) (k : String) : Option ℚ :=
  (d.find? (fun p => p.1 = k)).map (fun p => p.2)

/-- Python `d.get(k, default)`. -/
def dictGetD (d : FeatureDict) (k : String) (default : ℚ) : ℚ :=
  (dictGet? d k).getD default

/-- The keys of a feature dictionary, in insertion order. -/
def dictKeys (d : FeatureDict) : List String := d.map (fun p => p.1)

/-- `d[k] = v` on a Python dict: overwrite in place if present, else append. -/
def dictSet (d : FeatureDict) (k : String) (v : ℚ) : FeatureDict :=
  if d.any (fun p => p.1 = k) then
    d.map (fun p => if p.1 = k then (k, v) else p)
  else
    d ++ [(k, v)]

/-- Python `d.update(e)`: fold `dictSet` over the entries of `e`. -/
def dictUpdate (d e : FeatureDict) : FeatureDict :=
  e.foldl (fun acc p => dictSet acc p.1 p.2) d

/-- Python `max(a, b)` on numbers, in a form the kernel evaluates. -/
def qmax (a b : ℚ) : ℚ := if a ≤ b then b else a

/-- Python `min(a, b)` on numbers, in a form the kernel evaluates. -/
def qmin (a b : ℚ) : ℚ := if b ≤ a then b else a

/-- Python `abs(a)`, in a form the kernel evaluates. -/
def qabs (a : ℚ) : ℚ := if a < 0 then -a else a

/-- Arithmetic mean (`np.mean`); guarded against `[]` by all call sites. -/
def qmean (l : List ℚ) : ℚ := l.sum / l.length

/-- Population variance, `np.var`. -/
def qvariance (l : List ℚ) : ℚ :=
  qmean (l.map (fun x => (x - qmean l) ^ 2))

/-- Population standard deviation `np.std`, with the square root abstracted. -/
def qstd (qsqrt : ℚ → ℚ) (l : List ℚ) : ℚ := qsqrt (qvariance l)

/--
The raw habit record consumed by `FeatureEngineer` (spec §3 HabitRecord):
check-in timestamps, creation timestamp, current streak, target frequency in
days, optional accountability partner, partner interaction timestamps, and
reminder events reduced to their `responded` flags.
-/
structure HabitData where
  check_ins : List ℤ := []
  created_at : ℤ := 0
  current_streak : ℚ := 0
  target_frequency : ℚ := 1
  accountability_partner_id : Option ℤ := none
  partner_check_ins : List ℤ := []
  partner_messages : List ℤ := []
  reminder_sent : List Bool := []
deriving DecidableEq

/-- `UserContext`: mood and sleep logs as (timestamp, score) pairs. -/
structure UserData where
  mood_logs : List (ℤ × ℚ) := []
  sleep_logs : List (ℤ × ℚ) := []
deriving DecidableEq

/-- `FeatureEngineer._temporal_features`, with `datetime.now()` passed in. -/
def temporal_features (now : ℤ) (h : HabitData) : FeatureDict :=
  [ ("streak_length", h.current_streak),
    ("days_since_creation", (tdDays (now - h.created_at) : ℚ)),
    ("total_check_ins", (h.check_ins.length : ℚ)),
    ("habit_age_weeks", (tdDays (now - h.created_at) : ℚ) / 7),
    ("check_ins_per_week",
      (h.check_ins.length : ℚ) / qmax 1 ((tdDays (now - h.created_at) : ℚ) / 7)) ]

/-- Deduplication keeping the FIRST occurrence of each element, the order in
which CPython dicts and `collections.Counter` record keys. -/
def firstDedup (l : List ℤ) : List ℤ :=
  l.foldl (fun acc x => if x ∈ acc then acc else acc ++ [x]) []

/-- `Counter(hours).most_common(1)[0][0]`: the value with the largest count;
`sorted` is stable, so ties go to the first-inserted value. -/
def mostCommon (l : List ℤ) : ℤ :=
  match firstDedup l with
  | [] => 0
  | x :: xs => xs.foldl (fun best c => if l.count c > l.count best then c else best) x

/-- `scipy.stats.entropy` of an (already normalised) probability list:
`-Σ p * ln p`, the natural logarithm abstracted as `qlog`. -/
def shannonEntropy (qlog : ℚ → ℚ) (probs : List ℚ) : ℚ :=
  -(probs.map (fun p => p * qlog p)).sum

/-- `FeatureEngineer._pattern_features`. -/
def pattern_features (qlog : ℚ → ℚ) (h : HabitData) : FeatureDict :=
  if h.check_ins = [] then
    [ ("weekday_completion_rate", 0),
      ("weekend_completion_rate", 0),
      ("morning_check_in_rate", 0),
      ("evening_check_in_rate", 0),
      ("most_common_hour", 12),
      ("hour_entropy", 0) ]
  else
    let weekdays := h.check_ins.map tsWeekday
    let weekday_count := (weekdays.filter (fun d => d < 5)).length
    let weekend_count := (weekdays.filter (fun d => 5 ≤ d)).length
    let hours := h.check_ins.map tsHour
    let morning_count := (hours.filter (fun x => 5 ≤ x ∧ x < 12)).length
    let evening_count := (hours.filter (fun x => 17 ≤ x ∧ x < 22)).length
    let hour_probs := (firstDedup hours).map (fun x => (hours.count x : ℚ) / hours.length)
    let hour_entropy := shannonEntropy qlog hour_probs
    [ ("weekday_completion_rate", (weekday_count : ℚ) / qmax 1 (h.check_ins.length : ℚ)),
      ("weekend_completion_rate", (weekend_count : ℚ) / qmax 1 (h.check_ins.length : ℚ)),
      ("morning_check_in_rate", (morning_count : ℚ) / h.check_ins.length),
      ("evening_check_in_rate", (evening_count : ℚ) / h.check_ins.length),
      ("most_common_hour", (mostCommon hours : ℚ)),
      ("hour_entropy", hour_entropy) ]

/-- `FeatureEngineer._consistency_features`. -/
def consistency_features (qsqrt : ℚ → ℚ) (h : HabitData) : FeatureDict :=
  if h.check_ins.length < 2 then
    [ ("check_in_consistency_score", 1/2),
      ("avg_check_in_hour", 12),
      ("check_in_time_variance", 0),
      ("inter_checkin_mean_days", 0),
      ("inter_checkin_std_days", 0),
      ("regularity_score", 1/2) ]
  else
    let hours := h.check_ins.map (fun t => (tsHour t : ℚ) + (tsMinute t : ℚ) / 60)
    let avg_hour := qmean hours
    let hour_std := qstd qsqrt hours
    let consistency_score := 1 / (1 + hour_std)
    let intervals :=
      (h.check_ins.zip h.check_ins.tail).map (fun p => (tdDays (p.2 - p.1) : ℚ))
    let mean_interval := if intervals = [] then 0 else qmean intervals
    let std_interval := if 1 < intervals.length then qstd qsqrt intervals else 0
    let expected_freq := h.target_frequency
    let regularity := 1 - qmin 1 (qabs (mean_interval - expected_freq) / qmax 1 expected_freq)
    [ ("check_in_consistency_score", consistency_score),
      ("avg_check_in_hour", avg_hour),
      ("check_in_time_variance", hour_std),
      ("inter_checkin_mean_days", mean_interval),
      ("inter_checkin_std_days", std_interval),
      ("regularity_score", regularity) ]

/--
`np.polyfit(days_ago, [1]*len(days_ago), 1)` slope: the least-squares slope of
a degree-1 fit of a constant response 1 against `days_ago`.  When the design is
non-singular this is `(n·Σxy − Σx·Σy)/(n·Σx² − (Σx)²)` with every `y = 1`,
which is zero; the numpy lstsq routine on the singular all-equal design returns the
minimum-norm solution `x₀/(x₀² + 1)`.
-/
def polyfitSlopeOnes (xs : List ℤ) : ℚ :=
  let n : ℚ := xs.length
  let sx : ℚ := ((xs.map (fun x => (x : ℚ))).sum)
  let sxx : ℚ := ((xs.map (fun x => (x : ℚ) ^ 2)).sum)
  let det := n * sxx - sx ^ 2
  if det = 0 then
    match xs with
    | [] => 0
    | x :: _ => (x : ℚ) / ((x : ℚ) ^ 2 + 1)
  else
    (n * sx - sx * n) / det

/-- `FeatureEngineer._momentum_features`. -/
def momentum_features (now : ℤ) (h : HabitData) : FeatureDict :=
  let last_7 := h.check_ins.filter (fun c => tdDays (now - c) ≤ 7)
  let last_30 := h.check_ins.filter (fun c => tdDays (now - c) ≤ 30)
  let rate_7d : ℚ := (last_7.length : ℚ) / 7
  let rate_30d : ℚ := (last_30.length : ℚ) / 30
  let prev_7_count := (h.check_ins.filter
      (fun c => 7 < tdDays (now - c) ∧ tdDays (now - c) ≤ 14)).length
  let momentum : ℚ := ((last_7.length : ℚ) - prev_7_count) / 7
  let recent_misses : ℚ := 7 - (last_7.length : ℚ)
  let trend_slope : ℚ :=
    if 3 ≤ last_30.length then
      polyfitSlopeOnes (last_30.map (fun c => tdDays (now - c)))
    else 0
  [ ("completion_rate_7d", rate_7d),
    ("completion_rate_30d", rate_30d),
    ("momentum_score", momentum),
    ("recent_miss_count", recent_misses),
    ("trend_slope", trend_slope),
    ("acceleration", rate_7d - rate_30d) ]

/-- `FeatureEngineer._social_features`. -/
def social_features (now : ℤ) (h : HabitData) : FeatureDict :=
  let has_partner := h.accountability_partner_id.isSome
  let partner_engagement : ℚ :=
    if has_partner ∧ (h.partner_check_ins ≠ [] ∨ h.partner_messages ≠ []) then
      let recent_interactions :=
        ((h.partner_check_ins ++ h.partner_messages).filter
          (fun p => tdDays (now - p) ≤ 7)).length
      qmin 1 ((recent_interactions : ℚ) / 7)
    else 0
  let response_rate : ℚ :=
    if h.reminder_sent ≠ [] then
      ((h.reminder_sent.filter (fun r => r)).length : ℚ) / h.reminder_sent.length
    else 1/2
  [ ("has_accountability_partner", if has_partner then 1 else 0),
    ("partner_engagement_score", partner_engagement),
    ("reminder_response_rate", response_rate),
    ("social_support_score",
      ((if has_partner then (1:ℚ) else 0) + partner_engagement + response_rate) / 3) ]

/-- Insertion keeping a list of distinct integers sorted ascending. -/
def insertSorted (x : ℤ) : List ℤ → List ℤ
  | [] => [x]
  | y :: ys => if x ≤ y then x :: y :: ys else y :: insertSorted x ys

/-- `sorted` of a collection of integers. -/
def sortInts (l : List ℤ) : List ℤ := l.foldr insertSorted []

/-- Association-list write used for the Python date-keyed dict comprehension
(later entries overwrite earlier ones, as in a dict comprehension). -/
def assocSet (d : List (ℤ × ℚ)) (k : ℤ) (v : ℚ) : List (ℤ × ℚ) :=
  if d.any (fun p => p.1 = k) then
    d.map (fun p => if p.1 = k then (k, v) else p)
  else
    d ++ [(k, v)]

/-- Pearson correlation coefficient, `scipy.stats.pearsonr`, the square root
abstracted as `qsqrt`. -/
def pearson (qsqrt : ℚ → ℚ) (xs ys : List ℚ) : ℚ :=
  let mx := qmean xs
  let my := qmean ys
  let num := ((xs.zip ys).map (fun p => (p.1 - mx) * (p.2 - my))).sum
  let den := qsqrt ((xs.map (fun x => (x - mx) ^ 2)).sum) *
             qsqrt ((ys.map (fun y => (y - my) ^ 2)).sum)
  num / den

/-- Distinct values of a rational list (`set(...)`), first occurrences kept. -/
def firstDedupQ (l : List ℚ) : List ℚ :=
  l.foldl (fun acc x => if x ∈ acc then acc else acc ++ [x]) []

/-- `FeatureEngineer._calculate_temporal_correlation`. -/
def calculate_temporal_correlation (qsqrt : ℚ → ℚ)
    (check_ins : List ℤ) (logs : List (ℤ × ℚ)) : ℚ :=
  let check_in_dates := firstDedup (check_ins.map tsDate)
  let log_dict := logs.foldl (fun acc p => assocSet acc (tsDate p.1) p.2) []
  let common_dates :=
    sortInts (check_in_dates.filter (fun d => log_dict.any (fun p => p.1 = d)))
  if common_dates.length < 3 then 0
  else
    let check_in_vector : List ℚ :=
      common_dates.map (fun d => if d ∈ check_in_dates then 1 else 0)
    let log_vector : List ℚ :=
      common_dates.map (fun d =>
        ((log_dict.find? (fun p => p.1 = d)).map (fun p => p.2)).getD 0)
    if (firstDedupQ check_in_vector).length < 2 ∨ (firstDedupQ log_vector).length < 2 then 0
    else pearson qsqrt check_in_vector log_vector

/-- `FeatureEngineer._correlation_features`. -/
def correlation_features (qsqrt : ℚ → ℚ) (h : HabitData) (u : UserData) : FeatureDict :=
  let mood_corr :=
    if h.check_ins ≠ [] ∧ u.mood_logs ≠ [] then
      calculate_temporal_correlation qsqrt h.check_ins u.mood_logs
    else 0
  let sleep_corr :=
    if h.check_ins ≠ [] ∧ u.sleep_logs ≠ [] then
      calculate_temporal_correlation qsqrt h.check_ins u.sleep_logs
    else 0
  [ ("mood_correlation", mood_corr),
    ("sleep_quality_correlation", sleep_corr) ]

/-- `FeatureEngineer._derived_features`: reads back previously merged keys.
Note the engagement blend reads the key `consistency_score`, not the
`check_in_consistency_score` key that the consistency group emits. -/
def derived_features (f : FeatureDict) : FeatureDict :=
  let maturity : ℚ :=
    if dictGetD f "days_since_creation" 0 > 0 then
      qmin 1 (dictGetD f "days_since_creation" 0 / 90)
    else 0
  let engagement : ℚ :=
    dictGetD f "completion_rate_30d" 0 * 0.4 +
    dictGetD f "consistency_score" 0 * 0.3 +
    dictGetD f "social_support_score" 0 * 0.3
  let high_variance := dictGetD f "check_in_time_variance" 0 > 4
  let declining_momentum := dictGetD f "momentum_score" 0 < -0.1
  let low_recent_rate := dictGetD f "completion_rate_7d" 0 < 0.5
  let risk_flags : ℚ :=
    (if high_variance then 1 else 0) + (if declining_momentum then 1 else 0) +
    (if low_recent_rate then 1 else 0)
  [ ("habit_maturity", maturity),
    ("overall_engagement_score", engagement),
    ("risk_flag_count", risk_flags),
    ("habit_category_encoded", dictGetD f "habit_category_encoded" 0),
    ("time_of_day_encoded", dictGetD f "time_of_day_encoded" 0),
    ("habit_difficulty_rating", dictGetD f "habit_difficulty_rating" 0.5) ]

/-- `FeatureEngineer.engineer_features`: merge of all feature groups.  A `none`
user context models a falsy `user_data` argument in Python. -/
def engineer_features (qlog qsqrt : ℚ → ℚ) (now : ℤ) (h : HabitData)
    (u : Option UserData) (include_correlations : Bool := true) : FeatureDict :=
  let f := dictUpdate [] (temporal_features now h)
  let f := dictUpdate f (pattern_features qlog h)
  let f := dictUpdate f (consistency_features qsqrt h)
  let f := dictUpdate f (momentum_features now h)
  let f := dictUpdate f (social_features now h)
  let f :=
    match u with
    | some u => if include_correlations then dictUpdate f (correlation_features qsqrt h u) else f
    | none => f
  dictUpdate f (derived_features f)

/--
The fitted state of the wrapped `xgb.XGBClassifier`: whether `fit` (or
`load_model` on a trained artifact) has been called, and the scoring function
`predict_proba(row)[1]` on a row of feature values in model order; a `none`
cell is a pandas `NaN`, which XGBoost treats as a missing value and still
scores.  Predicting from an unfitted classifier raises `NotFittedError`
inside the library.
-/
structure MLModel where
  fitted : Bool
  score : List (Option ℚ) → ℚ

/-- The metadata JSON artifact: `feature_names` plus the training metadata
payload (`none` models a JSON object without the `feature_names` key). -/
structure MetaFile where
  feature_names : Option (List String)
  payload : List (String × ℚ)

/-- A persisted artifact: either a serialized model or a metadata JSON file. -/
inductive Artifact where
  | model (m : MLModel)
  | meta (f : MetaFile)

/-- The artifact store (filesystem), keyed by path. -/
abbrev Store := List (String × Artifact)

/-- Read a path from the store. -/
def storeGet? (s : Store) (path : String) : Option Artifact :=
  (s.find? (fun p => p.1 = path)).map (fun p => p.2)

/-- Write a path in the store, overwriting any previous content. -/
def storePut : Store → String → Artifact → Store
  | [], path, a => [(path, a)]
  | (k, b) :: s, path, a =>
    if k = path then (path, a) :: s else (k, b) :: storePut s path a

/-- `HabitSuccessPredictor`: classifier, feature-name contract, metadata. -/
structure Predictor where
  model : Option MLModel
  feature_names : List String
  model_metadata : List (String × ℚ) := []

/-- The default feature-name list set by
`HabitSuccessPredictor._initialize_new_model`. -/
def defaultFeatureNames : List String :=
  [ "streak_length",
    "check_in_consistency_score",
    "weekday_completion_rate",
    "weekend_completion_rate",
    "reminder_response_rate",
    "avg_check_in_hour",
    "check_in_time_variance",
    "days_since_creation",
    "total_check_ins",
    "completion_rate_7d",
    "completion_rate_30d",
    "mood_correlation",
    "sleep_quality_correlation",
    "has_accountability_partner",
    "partner_engagement_score",
    "habit_difficulty_rating",
    "habit_category_encoded",
    "time_of_day_encoded",
    "momentum_score",
    "recent_miss_count" ]

/-- `pd.DataFrame([features])[feature_names]` on a single dict: every
requested column must be a key of the dict, else pandas raises `KeyError`;
the row is the values in feature-name order. -/
def selectRow (f : FeatureDict) : List String → Option (List ℚ)
  | [] => some []
  | k :: ks =>
    match dictGet? f k, selectRow f ks with
    | some v, some r => some (v :: r)
    | _, _ => none

/-- `HabitSuccessPredictor.predict_success_probability`. -/
def predict_success_probability (p : Predictor) (f : FeatureDict) : Except String ℚ :=
  match p.model with
  | none => .error "Model not trained or loaded"
  | some m =>
    match selectRow f p.feature_names with
    | none => .error "KeyError: feature name not in columns"
    | some row =>
      if m.fitted then .ok (m.score (row.map some))
      else .error "NotFittedError: need to call fit or load_model beforehand"

/-- The column index of `pd.DataFrame(list_of_dicts)`: the union of the keys
of all rows, in order of first appearance. -/
def frameColumns (fs : List FeatureDict) : List String :=
  fs.foldl (fun acc f => acc ++ ((dictKeys f).filter (fun k => k ∉ acc))) []

/-- `HabitSuccessPredictor.predict_batch`.  `pd.DataFrame(habits_features)`
has the key-union as columns; selecting `feature_names` raises `KeyError`
only if some name is absent from EVERY row; a key absent from an individual
row becomes `NaN` (modelled `none`) in that row and is scored as a missing
value by XGBoost. -/
def predict_batch (p : Predictor) (fs : List FeatureDict) : Except String (List ℚ) :=
  match p.model with
  | none => .error "Model not trained or loaded"
  | some m =>
    let cols := frameColumns fs
    if p.feature_names.all (fun k => k ∈ cols) then
      let rows := fs.map (fun f => p.feature_names.map (fun k => dictGet? f k))
      if m.fitted then .ok (rows.map m.score)
      else .error "NotFittedError: need to call fit or load_model beforehand"
    else .error "KeyError: feature name not in columns"

/-- `HabitSuccessPredictor.get_risk_category`. -/
def get_risk_category (success_probability : ℚ) : String :=
  if success_probability ≥ 0.7 then "high_success"
  else if success_probability ≥ 0.4 then "moderate_risk"
  else "high_risk"

/-- The two file writes `save_model(path)` performs, in program order: the
XGBoost model state at `path + ".xgb"` first, the metadata JSON at
`path + "_metadata.json"` second. -/
def saveWrites (p : Predictor) (m : MLModel) (path : String) : List (String × Artifact) :=
  [ (path ++ ".xgb", Artifact.model m),
    (path ++ "_metadata.json", Artifact.meta ⟨some p.feature_names, p.model_metadata⟩) ]

/-- The store after the first `k` writes of an interrupted `save_model`. -/
def partialSave (p : Predictor) (m : MLModel) (path : String) (s : Store) (k : ℕ) : Store :=
  ((saveWrites p m path).take k).foldl (fun acc w => storePut acc w.1 w.2) s

/-- `HabitSuccessPredictor.save_model`: raises when there is no model, or when
the wrapped classifier is unfitted (`get_booster` raises `NotFittedError`);
otherwise writes the model file then the metadata file. -/
def save_model (p : Predictor) (path : String) (s : Store) : Except String Store :=
  match p.model with
  | none => .error "No model to save"
  | some m =>
    if m.fitted then .ok (partialSave p m path s 2)
    else .error "NotFittedError: need to call fit or load_model beforehand"

/-- `HabitSuccessPredictor.load_model`: reads `path + ".xgb"` into a fresh
classifier, then the metadata JSON, and takes `metadata["feature_names"]`,
which raises `KeyError` when that key is absent. -/
def load_model (path : String) (s : Store) : Except String Predictor :=
  match storeGet? s (path ++ ".xgb") with
  | none => .error "FileNotFoundError: model file"
  | some (Artifact.meta _) => .error "XGBoostError: invalid model file"
  | some (Artifact.model m) =>
    match storeGet? s (path ++ "_metadata.json") with
    | none => .error "FileNotFoundError: metadata file"
    | some (Artifact.model _) => .error "JSONDecodeError: invalid metadata file"
    | some (Artifact.meta mf) =>
      match mf.feature_names with
      | none => .error "KeyError: feature_names"
      | some names => .ok ⟨some m, names, mf.payload⟩

/-- `ceil(n * fraction)` for the sklearn float test sizes 0.2 and 0.1,
expressed as ceiling division by 5 and 10. -/
def ceilDiv (a b : ℕ) : ℕ := (a + b - 1) / b

/--
`sklearn.model_selection._split._approximate_mode(class_counts, n_draws)`
restricted to what determines the class counts of the train partition: the
floored per-class allocation `count * n_draws // n_samples`, with the
remaining draws given to the classes of largest fractional part (sklearn
breaks exact fractional-part ties with its RNG; this embedding breaks them
stably by class order, which coincides with sklearn on every single-class
input, the only inputs the theorems below instantiate).
-/
def approximateMode (counts : List ℕ) (nDraws nSamples : ℕ) : List ℕ :=
  let floored := counts.map (fun c => c * nDraws / nSamples)
  let rem := nDraws - floored.sum
  let fracKey := fun i => ((counts.getD i 0) * nDraws) % nSamples
  let idxs := (List.range counts.length).foldl
    (fun acc i =>
      let rec insertDesc : List ℕ → List ℕ
        | [] => [i]
        | j :: js => if fracKey i > fracKey j then i :: j :: js else j :: insertDesc js
      insertDesc acc) []
  let chosen := idxs.take rem
  (List.range counts.length).map (fun i => floored.getD i 0 + if i ∈ chosen then 1 else 0)

/--
The validation performed by `HabitSuccessPredictor.train` BEFORE
`self.model.fit` runs, as a function of the label column: the stratified
`train_test_split(test_size=0.2)` (sklearn `_validate_shuffle_split` empty
partition check, then the `StratifiedShuffleSplit` checks: every class needs
at least 2 members, and each partition at least as many rows as classes),
followed by the same checks for the validation split
(`test_size=0.1`) on the train partition.  `train` itself contains no input
validation of its own; `.ok ()` means control reaches `self.model.fit`.
-/
def trainPreFit (labels : List ℤ) : Except String Unit :=
  let n := labels.length
  let nTest := ceilDiv n 5
  let nTrain := n - nTest
  if nTrain = 0 then
    .error "ValueError: the resulting train set will be empty"
  else
    let classes := labels.dedup
    let counts := classes.map (fun c => labels.count c)
    if counts.any (fun c => c < 2) then
      .error "ValueError: the least populated class in y has only 1 member"
    else if nTrain < classes.length then
      .error "ValueError: the train_size should be greater or equal to the number of classes"
    else if nTest < classes.length then
      .error "ValueError: the test_size should be greater or equal to the number of classes"
    else
      let trainCounts := approximateMode counts nTrain n
      let m := nTrain
      let nVal := ceilDiv m 10
      let mTrain := m - nVal
      if mTrain = 0 then
        .error "ValueError: the resulting train set will be empty"
      else
        let counts2 := ((classes.zip trainCounts).filter (fun p => p.2 ≠ 0)).map (fun p => p.2)
        if counts2.any (fun c => c < 2) then
          .error "ValueError: the least populated class in y has only 1 member"
        else if mTrain < counts2.length then
          .error "ValueError: the train_size should be greater or equal to the number of classes"
        else if nVal < counts2.length then
          .error "ValueError: the test_size should be greater or equal to the number of classes"
        else .ok ()

/--
The raw `habit_data` dict consumed by the module-level
`calculate_habit_features` helper.  Optional entries read through
`habit_data.get(key, default)` are modelled as fields carrying the defaulted
value (the code treats an absent key and a key holding the default value
identically).
-/
structure RawHabit where
  check_ins : List ℤ := []
  created_at : ℤ := 0
  current_streak : ℚ := 0
  reminder_responses : List Bool := []
  mood_correlation : ℚ := 0
  sleep_correlation : ℚ := 0
  has_partner : Bool := false
  partner_engagement : ℚ := 0
  difficulty : ℚ := 5
  category_id : ℚ := 0
  time_of_day : ℚ := 0
deriving DecidableEq

/-- `check_ins[-30:] if len(check_ins) > 30 else check_ins`. -/
def lastThirty (l : List ℤ) : List ℤ :=
  if 30 < l.length then l.drop (l.length - 30) else l

/-- The module-level `calculate_habit_features` of
`habit_success_predictor.py`, with `datetime.now()` passed in as `now`. -/
def calculate_habit_features (qsqrt : ℚ → ℚ) (now : ℤ) (h : RawHabit) : FeatureDict :=
  let check_ins := h.check_ins
  let streak_length := h.current_streak
  let days_since_creation : ℚ := (tdDays (now - h.created_at) : ℚ)
  let total_check_ins : ℚ := (check_ins.length : ℚ)
  let hourStats : ℚ × ℚ × ℚ :=
    if 2 ≤ check_ins.length then
      let check_in_hours := check_ins.map (fun c => (tsHour c : ℚ))
      let avg_hour := qmean check_in_hours
      let time_variance := qstd qsqrt check_in_hours
      (avg_hour, time_variance, 1 / (1 + time_variance))
    else (12, 0, 1/2)
  let avg_hour := hourStats.1
  let time_variance := hourStats.2.1
  let consistency_score := hourStats.2.2
  let recent_check_ins := lastThirty check_ins
  let weekday_check_ins := recent_check_ins.filter (fun c => tsWeekday c < 5)
  let weekend_check_ins := recent_check_ins.filter (fun c => 5 ≤ tsWeekday c)
  let weekday_rate : ℚ := (weekday_check_ins.length : ℚ) / qmax 1 (recent_check_ins.length : ℚ)
  let weekend_rate : ℚ := (weekend_check_ins.length : ℚ) / qmax 1 (recent_check_ins.length : ℚ)
  let last_7_days := check_ins.filter (fun c => tdDays (now - c) ≤ 7)
  let last_30_days := check_ins.filter (fun c => tdDays (now - c) ≤ 30)
  let completion_rate_7d : ℚ := (last_7_days.length : ℚ) / 7
  let completion_rate_30d : ℚ := (last_30_days.length : ℚ) / 30
  let reminder_response_rate : ℚ :=
    ((h.reminder_responses.filter (fun r => r)).length : ℚ) /
      qmax 1 (h.reminder_responses.length : ℚ)
  let momentum_score : ℚ :=
    if 7 ≤ check_ins.length then
      let recent_7 := last_7_days.length
      let previous_7 := (check_ins.filter
        (fun c => 7 < tdDays (now - c) ∧ tdDays (now - c) ≤ 14)).length
      ((recent_7 : ℚ) - (previous_7 : ℚ)) / 7
    else 0
  let recent_miss_count : ℚ := 7 - (last_7_days.length : ℚ)
  [ ("streak_length", streak_length),
    ("check_in_consistency_score", consistency_score),
    ("weekday_completion_rate", weekday_rate),
    ("weekend_completion_rate", weekend_rate),
    ("reminder_response_rate", reminder_response_rate),
    ("avg_check_in_hour", avg_hour),
    ("check_in_time_variance", time_variance),
    ("days_since_creation", days_since_creation),
    ("total_check_ins", total_check_ins),
    ("completion_rate_7d", completion_rate_7d),
    ("completion_rate_30d", completion_rate_30d),
    ("mood_correlation", h.mood_correlation),
    ("sleep_quality_correlation", h.sleep_correlation),
    ("has_accountability_partner", if h.has_partner then 1 else 0),
    ("partner_engagement_score", h.partner_engagement),
    ("habit_difficulty_rating", h.difficulty / 10),
    ("habit_category_encoded", h.category_id),
    ("time_of_day_encoded", h.time_of_day),
    ("momentum_score", momentum_score),
    ("recent_miss_count", recent_miss_count) ]

/--
Modelled from the spec: the check-ins-per-week formula as the specification
words it, "total / age-in-weeks, with age floored at 1 day" — the habit age
in days is floored at 1 day and then converted to weeks.  Kept separate from
`temporal_features` (the source) for refinement comparison.
-/
def check_ins_per_week_specFormula (now : ℤ) (h : HabitData) : ℚ :=
  (h.check_ins.length : ℚ) / (qmax 1 (tdDays (now - h.created_at) : ℚ) / 7)

/- ------------------------------------------------------------------ -/
/-  Helper lemmas                                                      -/
/- ------------------------------------------------------------------ -/

theorem dictGet?_eq_none_iff {f : FeatureDict} {k : String} :
    dictGet? f k = none ↔ k ∉ dictKeys f := by
  unfold dictGet? dictKeys
  rw [Option.map_eq_none', List.find?_eq_none]
  simp only [decide_eq_true_eq, List.mem_map, not_exists, Prod.forall, Prod.exists]
  aesop

theorem dictGet?_nil {k : String} : dictGet? [] k = none := rfl

theorem dictGet?_cons {k' k : String} {v : ℚ} {d : FeatureDict} :
    dictGet? ((k', v) :: d) k = if k' = k then some v else dictGet? d k := by
  by_cases h : k' = k <;> simp [dictGet?, List.find?, h]

theorem dictGet?_map_set_ne {d : FeatureDict} {k k' : String} {v : ℚ} (hkk : k ≠ k') :
    dictGet? (d.map (fun p => if p.1 = k then (k, v) else p)) k' = dictGet? d k' := by
  induction d with
  | nil => rfl
  | cons p l ih =>
    obtain ⟨a, b⟩ := p
    by_cases hak : a = k
    · subst hak
      simp [dictGet?_cons, hkk, ih]
    · by_cases hak' : a = k' <;> simp [dictGet?_cons, hak, hak', ih, Ne.symm hkk]

theorem dictGet?_map_set_mem {d : FeatureDict} {k : String} {v : ℚ}
    (h : d.any (fun p => p.1 = k)) :
    dictGet? (d.map (fun p => if p.1 = k then (k, v) else p)) k = some v := by
  induction d with
  | nil => simp at h
  | cons p l ih =>
    obtain ⟨a, b⟩ := p
    by_cases hak : a = k
    · simp [hak, dictGet?_cons]
    · simp only [List.any_cons, decide_eq_true_eq, hak, Bool.false_or,
        decide_eq_true_eq] at h
      simp [hak, dictGet?_cons, ih h]

theorem dictGet?_append_single {d : FeatureDict} {k k' : String} {v : ℚ} :
    dictGet? (d ++ [(k, v)]) k' =
      ((dictGet? d k').rec (motive := fun _ => Option ℚ)
        (if k = k' then some v else none) (fun w => some w)) := by
  induction d with
  | nil => by_cases h : k = k' <;> simp [dictGet?_cons, dictGet?_nil, h]
  | cons p l ih =>
    obtain ⟨a, b⟩ := p
    by_cases hak : a = k' <;> simp [dictGet?_cons, hak, ih]

theorem dictGet?_dictSet {d : FeatureDict} {k k' : String} {v : ℚ} :
    dictGet? (dictSet d k v) k' = if k = k' then some v else dictGet? d k' := by
  by_cases hany : d.any (fun p => p.1 = k)
  · by_cases hkk : k = k'
    · subst hkk
      simp [dictSet, hany, dictGet?_map_set_mem hany]
    · simp [dictSet, hany, dictGet?_map_set_ne hkk, hkk]
  · by_cases hkk : k = k'
    · subst hkk
      have hnone : dictGet? d k = none := by
        rw [dictGet?_eq_none_iff]
        intro hmem
        apply hany
        rw [List.any_eq_true]
        obtain ⟨p, hp, hpk⟩ := List.mem_map.mp hmem
        exact ⟨p, hp, by simp [hpk]⟩
      simp [dictSet, hany, dictGet?_append_single, hnone]
    · simp only [dictSet, hany, if_false, Bool.false_eq_true, ite_false]
      rw [dictGet?_append_single]
      cases hd : dictGet? d k' <;> simp [hkk]

theorem mem_frameColumns_iff {fs : List FeatureDict} {k : String} :
    k ∈ frameColumns fs ↔ ∃ f ∈ fs, k ∈ dictKeys f := by
  have aux : ∀ (l : List FeatureDict) (acc : List String),
      k ∈ l.foldl (fun acc f => acc ++ ((dictKeys f).filter (fun x => x ∉ acc))) acc ↔
        k ∈ acc ∨ ∃ f ∈ l, k ∈ dictKeys f := by
    intro l
    induction l with
    | nil => simp
    | cons f l ih =>
      intro acc
      simp only [List.foldl_cons, ih, List.mem_append, List.mem_filter, List.mem_cons]
      constructor
      · rintro (((h | ⟨h, -⟩) | ⟨g, hg, hk⟩))
        · exact Or.inl h
        · exact Or.inr ⟨f, Or.inl rfl, h⟩
        · exact Or.inr ⟨g, Or.inr hg, hk⟩
      · rintro (h | ⟨g, (rfl | hg), hk⟩)
        · by_cases hacc : k ∈ acc
          · exact Or.inl (Or.inl hacc)
          · exact Or.inl (Or.inl h)
        · by_cases hacc : k ∈ acc
          · exact Or.inl (Or.inl hacc)
          · exact Or.inl (Or.inr ⟨hk, by simpa using hacc⟩)
        · exact Or.inr ⟨g, hg, hk⟩
  have := aux fs []
  simpa [frameColumns] using this

theorem selectRow_eq_none {f : FeatureDict} {names : List String} {k : String}
    (hk : k ∈ names) (hnone : dictGet? f k = none) : selectRow f names = none := by
  induction names with
  | nil => cases hk
  | cons a l ih =>
    rcases List.mem_cons.mp hk with rfl | hl
    · simp [selectRow, hnone]
    · rw [selectRow, ih hl]
      cases dictGet? f a <;> rfl

theorem selectRow_map_of_some {f : FeatureDict} {names : List String} {row : List ℚ}
    (h : selectRow f names = some row) :
    names.map (fun k => dictGet? f k) = row.map some := by
  induction names generalizing row with
  | nil =>
    rw [selectRow] at h
    cases h
    rfl
  | cons a l ih =>
    rw [selectRow] at h
    cases ha : dictGet? f a with
    | none => rw [ha] at h; cases h
    | some v =>
      rw [ha] at h
      cases hl : selectRow f l with
      | none => rw [hl] at h; cases h
      | some r =>
        rw [hl] at h
        cases h
        simp [ha, ih hl]

theorem selectRow_isSome_of_complete {f : FeatureDict} {names : List String}
    (h : ∀ k ∈ names, (dictGet? f k).isSome) : ∃ row, selectRow f names = some row := by
  induction names with
  | nil => exact ⟨[], rfl⟩
  | cons a l ih =>
    obtain ⟨row, hrow⟩ := ih (fun k hk => h k (List.mem_cons_of_mem a hk))
    have ha := h a (List.mem_cons_self a l)
    cases hga : dictGet? f a with
    | none => rw [hga] at ha; cases ha
    | some v => exact ⟨v :: row, by rw [selectRow, hga, hrow]⟩

theorem dedup_replicate_one : ∀ n : ℕ, 1 ≤ n → (List.replicate n (1 : ℤ)).dedup = [1] := by
  intro n
  induction n with
  | zero => omega
  | succ k ih =>
    intro _
    rcases Nat.eq_zero_or_pos k with rfl | hk
    · simp
    · rw [List.replicate_succ, List.dedup_cons_of_mem (by simp [List.mem_replicate]; omega),
        ih hk]

theorem dictKeys_mem_of_isSome {f : FeatureDict} {k : String}
    (h : (dictGet? f k).isSome) : k ∈ dictKeys f := by
  by_contra hk
  rw [← dictGet?_eq_none_iff] at hk
  rw [hk] at h
  cases h

theorem storeGet?_cons {k' k : String} {a : Artifact} {s : Store} :
    storeGet? ((k', a) :: s) k = if k' = k then some a else storeGet? s k := by
  by_cases h : k' = k <;> simp [storeGet?, List.find?, h]

theorem storeGet?_put_self (s : Store) (k : String) (a : Artifact) :
    storeGet? (storePut s k a) k = some a := by
  induction s with
  | nil => simp [storePut, storeGet?_cons]
  | cons p l ih =>
    obtain ⟨k', b⟩ := p
    by_cases h : k' = k <;> simp [storePut, storeGet?_cons, h, ih]

theorem storeGet?_put_ne {k k' : String} (h : k ≠ k') (s : Store) (a : Artifact) :
    storeGet? (storePut s k a) k' = storeGet? s k' := by
  induction s with
  | nil => simp [storePut, storeGet?_cons, h]
  | cons p l ih =>
    obtain ⟨k0, b⟩ := p
    by_cases h0 : k0 = k
    · subst h0
      simp [storePut, storeGet?_cons, h]
    · by_cases h1 : k0 = k' <;> simp [storePut, storeGet?_cons, h0, h1, ih, Ne.symm h]

theorem modelPath_ne_metaPath (path : String) :
    path ++ ".xgb" ≠ path ++ "_metadata.json" := by
  intro h
  have h2 := congrArg String.data h
  simp [String.data_append] at h2

theorem approximateMode_single (c nD : ℕ) (hc : 0 < c) :
    approximateMode [c] nD c = [nD] := by
  simp [approximateMode, Nat.mul_div_cancel_left nD hc]
  rfl

/- ------------------------------------------------------------------ -/
/-  Claim theorems                                                     -/
/- ------------------------------------------------------------------ -/

/--
C3: `get_risk_category` returns `high_success` for probabilities at least
0.7, `moderate_risk` for probabilities in [0.4, 0.7), and `high_risk` below
0.4; in particular 0.69 is `moderate_risk`, 0.70 is `high_success`, 0.39 is
`high_risk`, and 0.40 is `moderate_risk`.
-/
theorem C3_risk_category_bands :
    (∀ p : ℚ, 0.7 ≤ p → get_risk_category p = "high_success") ∧
    (∀ p : ℚ, 0.4 ≤ p → p < 0.7 → get_risk_category p = "moderate_risk") ∧
    (∀ p : ℚ, p < 0.4 → get_risk_category p = "high_risk") ∧
    get_risk_category 0.69 = "moderate_risk" ∧
    get_risk_category 0.7 = "high_success" ∧
    get_risk_category 0.39 = "high_risk" ∧
    get_risk_category 0.4 = "moderate_risk" := by
  refine ⟨?_, ?_, ?_, by norm_num [get_risk_category], by norm_num [get_risk_category],
    by norm_num [get_risk_category], by norm_num [get_risk_category]⟩
  · intro p hp
    rw [get_risk_category, if_pos hp]
  · intro p h1 h2
    rw [get_risk_category, if_neg (by exact not_le.mpr h2), if_pos h1]
  · intro p hp
    rw [get_risk_category, if_neg (by push_neg; norm_num; linarith),
      if_neg (not_le.mpr hp)]

/--
C3 witness: the three bands of `C3_risk_category_bands` applied at the
concrete probabilities 0.8, 0.5 and 0.1.
-/
theorem C3_risk_category_bands_witness :
    get_risk_category 0.8 = "high_success" ∧
    get_risk_category 0.5 = "moderate_risk" ∧
    get_risk_category 0.1 = "high_risk" :=
  ⟨C3_risk_category_bands.1 0.8 (by norm_num),
   C3_risk_category_bands.2.1 0.5 (by norm_num) (by norm_num),
   C3_risk_category_bands.2.2.1 0.1 (by norm_num)⟩

/--
C8 counterexample: the claim says the age in the denominator of
check-ins-per-week is floored at 1 DAY.  For a habit created 3 days before
the reference time with 3 check-ins, the source divides by
`max(1, 3/7)` weeks = 1 week and yields 3.0, whereas the claimed formula
(age floored at 1 day, i.e. 3/7 of a week in the denominator) yields 7.0.
-/
theorem C8_counterexample_floor_is_one_week :
    dictGet? (temporal_features 4320 { created_at := 0, check_ins := [100, 1540, 2980] })
        "check_ins_per_week" = some 3 ∧
    check_ins_per_week_specFormula 4320 { created_at := 0, check_ins := [100, 1540, 2980] } = 7 ∧
    (3 : ℚ) ≠ 7 := by
  refine ⟨?_, ?_, by norm_num⟩
  · simp [temporal_features, dictGet?_cons, dictGet?_nil, tdDays, qmax,
      show Int.fdiv 4320 1440 = (3:ℤ) from rfl]
    norm_num
  · simp [check_ins_per_week_specFormula, qmax, tdDays,
      show Int.fdiv 4320 1440 = (3:ℤ) from rfl]

/--
C8 amended: for every habit record, the check-ins-per-week temporal feature
equals the total check-in count divided by the age of the habit in weeks, with the
age in WEEKS floored at 1 week (the source computes
`len(check_ins) / max(1, days/7.0)`).
-/
theorem C8_check_ins_per_week :
    ∀ (now : ℤ) (h : HabitData),
      dictGet? (temporal_features now h) "check_ins_per_week" =
        some ((h.check_ins.length : ℚ) /
          qmax 1 ((tdDays (now - h.created_at) : ℚ) / 7)) := by
  intro now h
  rfl

/--
C8 witness: `C8_check_ins_per_week` at the concrete record of
`C8_counterexample_floor_is_one_week` shifted by one day (4 days old).
-/
theorem C8_check_ins_per_week_witness :
    dictGet? (temporal_features 5760 { created_at := 0, check_ins := [100, 1540, 2980] })
        "check_ins_per_week" = some 3 := by
  rw [C8_check_ins_per_week 5760 { created_at := 0, check_ins := [100, 1540, 2980] }]
  simp [tdDays, qmax, show Int.fdiv 5760 1440 = (4:ℤ) from rfl]
  norm_num

/--
C9: for every habit record with zero check-ins the pattern group returns
exactly its documented defaults: weekday, weekend, morning and evening rates
0.0, most common hour 12.0, hour entropy 0.0.
-/
theorem C9_pattern_defaults :
    ∀ (qlog : ℚ → ℚ) (h : HabitData), h.check_ins = [] →
      pattern_features qlog h =
        [ ("weekday_completion_rate", 0),
          ("weekend_completion_rate", 0),
          ("morning_check_in_rate", 0),
          ("evening_check_in_rate", 0),
          ("most_common_hour", 12),
          ("hour_entropy", 0) ] := by
  intro qlog h he
  rw [pattern_features, if_pos he]

/--
C9 witness: `C9_pattern_defaults` at a concrete record with no check-ins.
-/
theorem C9_pattern_defaults_witness :
    pattern_features id ({ created_at := 720 } : HabitData) =
      [ ("weekday_completion_rate", 0),
        ("weekend_completion_rate", 0),
        ("morning_check_in_rate", 0),
        ("evening_check_in_rate", 0),
        ("most_common_hour", 12),
        ("hour_entropy", 0) ] :=
  C9_pattern_defaults id { created_at := 720 } rfl

/--
C10: for every raw habit record, `calculate_habit_features` returns a
dictionary whose keys are exactly the twenty names of
`defaultFeatureNames` (the list set by the initialization of a new predictor model), in the
same order, and every one of those names looks up successfully.
-/
theorem C10_calculate_features_keys :
    ∀ (qsqrt : ℚ → ℚ) (now : ℤ) (h : RawHabit),
      dictKeys (calculate_habit_features qsqrt now h) = defaultFeatureNames ∧
      (defaultFeatureNames.all
        (fun k => (dictGet? (calculate_habit_features qsqrt now h) k).isSome)) = true := by
  intro qsqrt now h
  exact ⟨rfl, rfl⟩

/--
C1: the claim states that the derived overall engagement score equals
0.4 × completion_rate_30d + 0.3 × (the consistency score emitted by the
consistency group, key `check_in_consistency_score`) + 0.3 ×
social_support_score.  The source instead reads the key
`consistency_score`, which no feature group ever emits, so the consistency
term is always the default 0.  At a record with zero check-ins created 10
days before the reference time (no partner, no reminders) the code stores
0.4·0 + 0.3·0 + 0.3·(1/6) = 0.05, while the claimed blend evaluates to
0.4·0 + 0.3·(1/2) + 0.3·(1/6) = 0.2.
-/
theorem C1_engagement_blend_drops_consistency_term :
    dictGet? (engineer_features id id 14400 { created_at := 0 } none true)
      "overall_engagement_score" = some 0.05 ∧
    dictGet? (engineer_features id id 14400 { created_at := 0 } none true)
      "consistency_score" = none ∧
    dictGetD (engineer_features id id 14400 { created_at := 0 } none true)
        "completion_rate_30d" 0 * 0.4 +
      dictGetD (engineer_features id id 14400 { created_at := 0 } none true)
        "check_in_consistency_score" 0 * 0.3 +
      dictGetD (engineer_features id id 14400 { created_at := 0 } none true)
        "social_support_score" 0 * 0.3 = 0.2 ∧
    (0.05 : ℚ) ≠ 0.2 := by
  refine ⟨?_, ?_, ?_, by norm_num⟩ <;>
  · simp [engineer_features, temporal_features, pattern_features, consistency_features,
      momentum_features, social_features, derived_features, dictUpdate, List.foldl,
      dictGet?_dictSet, dictGetD, dictGet?_cons, dictGet?_nil, qmax, qmin, qabs, tdDays]
    try norm_num

/--
C2 counterexample: in `predict_batch`, a feature key absent from one row but
present in another row is NOT a failure: `pd.DataFrame(list_of_dicts)` takes
the union of the keys as columns and fills the missing cell with NaN, which
the model scores as a missing value.  Here the second dictionary lacks the
declared feature "b", yet the batch call succeeds.
-/
theorem C2_counterexample_batch_nan_default :
    predict_batch ⟨some ⟨true, fun _ => 1/2⟩, ["a", "b"], []⟩
      [[("a", 1), ("b", 2)], [("a", 3)]] = .ok [1/2, 1/2] ∧
    "b" ∈ (["a", "b"] : List String) ∧
    dictGet? [("a", 3)] "b" = none := by
  refine ⟨rfl, by simp, rfl⟩

/--
C2 amended: `predict_success_probability` fails whenever the model is absent
(explicit `ValueError`) or unfitted (library `NotFittedError`), and whenever
any declared feature key is absent from its input (pandas `KeyError`); no
missing key is defaulted in the single-dict path.  `predict_batch` fails
when a declared key is absent from EVERY row, but a key absent from only
some rows is silently NaN-filled (see the counterexample), so the per-row
fail-fast part of the claim does not hold for batches.
-/
theorem C2_inference_fail_fast :
    (∀ (p : Predictor) (f : FeatureDict), p.model = none →
      predict_success_probability p f = .error "Model not trained or loaded") ∧
    (∀ (p : Predictor) (m : MLModel) (f : FeatureDict), p.model = some m →
      m.fitted = false → (predict_success_probability p f).isOk = false) ∧
    (∀ (p : Predictor) (f : FeatureDict) (k : String), k ∈ p.feature_names →
      dictGet? f k = none → (predict_success_probability p f).isOk = false) ∧
    (∀ (p : Predictor) (fs : List FeatureDict) (k : String), k ∈ p.feature_names →
      (∀ f ∈ fs, dictGet? f k = none) → (predict_batch p fs).isOk = false) := by
  refine ⟨?_, ?_, ?_, ?_⟩
  · intro p f h
    simp [predict_success_probability, h]
  · intro p m f hp hf
    rw [predict_success_probability, hp]
    cases hs : selectRow f p.feature_names <;> simp [hs, hf, Except.isOk, Except.toBool]
  · intro p f k hk hnone
    have hrow := selectRow_eq_none hk hnone
    cases hm : p.model with
    | none => simp [predict_success_probability, hm, Except.isOk, Except.toBool]
    | some m => simp [predict_success_probability, hm, hrow, Except.isOk, Except.toBool]
  · intro p fs k hk hnone
    have hcols : k ∉ frameColumns fs := by
      rw [mem_frameColumns_iff]
      rintro ⟨f, hf, hkey⟩
      exact (dictGet?_eq_none_iff.mp (hnone f hf)) hkey
    have hall : (p.feature_names.all (fun x => x ∈ frameColumns fs)) = false := by
      cases hb : (p.feature_names.all (fun x => x ∈ frameColumns fs)) with
      | false => rfl
      | true =>
        exact absurd (by simpa using List.all_eq_true.mp hb k hk) hcols
    cases hm : p.model with
    | none => simp [predict_batch, hm, Except.isOk, Except.toBool]
    | some m => simp [predict_batch, hm, hall, Except.isOk, Except.toBool]

/--
C2 witness: `C2_inference_fail_fast` applied at concrete predictors: a
`none` model, an unfitted model, a fitted model with an incomplete input
dictionary, and a batch whose declared key is missing from every row.
-/
theorem C2_inference_fail_fast_witness :
    predict_success_probability ⟨none, ["streak_length"], []⟩ [("streak_length", 1)] =
      .error "Model not trained or loaded" ∧
    (predict_success_probability ⟨some ⟨false, fun _ => 0⟩, ["streak_length"], []⟩
      [("streak_length", 1)]).isOk = false ∧
    (predict_success_probability ⟨some ⟨true, fun _ => 0⟩, ["streak_length"], []⟩
      ([] : FeatureDict)).isOk = false ∧
    (predict_batch ⟨some ⟨true, fun _ => 0⟩, ["streak_length"], []⟩
      [[("x", 1)]]).isOk = false :=
  ⟨C2_inference_fail_fast.1 ⟨none, ["streak_length"], []⟩ _ rfl,
   C2_inference_fail_fast.2.1 _ ⟨false, fun _ => 0⟩ _ rfl rfl,
   C2_inference_fail_fast.2.2.1 _ _ "streak_length" (by simp) rfl,
   C2_inference_fail_fast.2.2.2 _ _ "streak_length" (by simp)
     (by
       intro f hf
       simp only [List.mem_cons, List.not_mem_nil, or_false] at hf
       subst hf
       rfl)⟩

/--
C4 counterexample: on the EMPTY list of feature dictionaries (every element
of which vacuously carries all declared keys), `pd.DataFrame([])` has no
columns at all, so selecting the feature names raises `KeyError` and
`predict_batch` fails, while mapping `predict_success_probability` over the
empty list yields the empty list of results.
-/
theorem C4_counterexample_empty_batch :
    predict_batch ⟨some ⟨true, fun _ => 1/2⟩, ["a"], []⟩ ([] : List FeatureDict) =
      .error "KeyError: feature name not in columns" ∧
    ([] : List FeatureDict).map
      (fun f => predict_success_probability ⟨some ⟨true, fun _ => 1/2⟩, ["a"], []⟩ f) = [] :=
  ⟨rfl, rfl⟩

/--
C4 amended: for every fitted predictor and every NONEMPTY list of feature
dictionaries each containing every declared feature key, `predict_batch`
succeeds and returns exactly the element-wise results of
`predict_success_probability`, in input order.
-/
theorem C4_batch_matches_single :
    ∀ (p : Predictor) (m : MLModel) (fs : List FeatureDict),
      p.model = some m → m.fitted = true → fs ≠ [] →
      (∀ f ∈ fs, ∀ k ∈ p.feature_names, (dictGet? f k).isSome) →
      ∃ qs, predict_batch p fs = .ok qs ∧
        fs.map (fun f => predict_success_probability p f) = qs.map Except.ok := by
  intro p m fs hp hf hne hcomp
  refine ⟨fs.map (fun f => m.score (p.feature_names.map (fun k => dictGet? f k))), ?_, ?_⟩
  · have hall : (p.feature_names.all (fun x => x ∈ frameColumns fs)) = true := by
      rw [List.all_eq_true]
      intro k hk
      obtain ⟨f0, hf0⟩ := List.exists_mem_of_ne_nil fs hne
      have hsome := hcomp f0 hf0 k hk
      simpa using mem_frameColumns_iff.mpr ⟨f0, hf0, dictKeys_mem_of_isSome hsome⟩
    simp [predict_batch, hp, hall, hf]
  · rw [List.map_map]
    refine List.map_congr_left ?_
    intro f hfs
    obtain ⟨row, hrow⟩ :=
      selectRow_isSome_of_complete (fun k hk => hcomp f hfs k hk)
    have hvals := selectRow_map_of_some hrow
    simp [predict_success_probability, hp, hrow, hf, Function.comp, hvals]

/--
C4 witness: `C4_batch_matches_single` at a fitted two-feature predictor and
a concrete two-row batch of complete dictionaries.
-/
theorem C4_batch_matches_single_witness :
    ∃ qs, predict_batch ⟨some ⟨true, fun _ => 1/4⟩, ["a", "b"], []⟩
        [[("a", 1), ("b", 2)], [("b", 5), ("a", 3)]] = .ok qs ∧
      ([[("a", 1), ("b", 2)], [("b", 5), ("a", 3)]] : List FeatureDict).map
        (fun f => predict_success_probability
          ⟨some ⟨true, fun _ => 1/4⟩, ["a", "b"], []⟩ f) = qs.map Except.ok :=
  C4_batch_matches_single _ ⟨true, fun _ => 1/4⟩ _ rfl rfl (by simp)
    (by
      intro f hf k hk
      simp only [List.mem_cons, List.not_mem_nil, or_false] at hf hk
      rcases hf with rfl | rfl <;> rcases hk with rfl | rfl <;> rfl)

/--
C5: saving a trained predictor and loading the artifacts back yields a
predictor whose `predict_success_probability` output on any fixed feature
dictionary is identical to the pre-save output, hence within the 1e-9
tolerance (XGBoost model serialization is exact, modelled by the store
holding the model state itself).
-/
theorem C5_save_load_roundtrip :
    ∀ (p : Predictor) (m : MLModel) (path : String) (s : Store) (f : FeatureDict),
      p.model = some m → m.fitted = true →
      ∃ s2 p2, save_model p path s = .ok s2 ∧ load_model path s2 = .ok p2 ∧
        predict_success_probability p2 f = predict_success_probability p f ∧
        ∀ q q2, predict_success_probability p f = .ok q →
          predict_success_probability p2 f = .ok q2 →
          qabs (q2 - q) ≤ 1 / 1000000000 := by
  intro p m path s f hp hf
  refine ⟨partialSave p m path s 2,
    ⟨some m, p.feature_names, p.model_metadata⟩, ?_, ?_, ?_, ?_⟩
  · simp [save_model, hp, hf]
  · have h1 : storeGet? (partialSave p m path s 2) (path ++ ".xgb") =
        some (.model m) := by
      rw [show partialSave p m path s 2 =
        storePut (storePut s (path ++ ".xgb") (.model m)) (path ++ "_metadata.json")
          (.meta ⟨some p.feature_names, p.model_metadata⟩) from rfl]
      rw [storeGet?_put_ne (Ne.symm (modelPath_ne_metaPath path)), storeGet?_put_self]
    have h2 : storeGet? (partialSave p m path s 2) (path ++ "_metadata.json") =
        some (.meta ⟨some p.feature_names, p.model_metadata⟩) := by
      rw [show partialSave p m path s 2 =
        storePut (storePut s (path ++ ".xgb") (.model m)) (path ++ "_metadata.json")
          (.meta ⟨some p.feature_names, p.model_metadata⟩) from rfl]
      rw [storeGet?_put_self]
    simp [load_model, h1, h2]
  · simp [predict_success_probability, hp]
  · intro q q2 hq hq2
    have heq : predict_success_probability
        (⟨some m, p.feature_names, p.model_metadata⟩ : Predictor) f =
        predict_success_probability p f := by
      simp [predict_success_probability, hp]
    rw [heq, hq] at hq2
    injection hq2 with h
    subst h
    norm_num [qabs]

/--
C5 witness: `C5_save_load_roundtrip` at a concrete fitted single-feature
predictor, the path "mdl", the empty store and a concrete input dictionary.
-/
theorem C5_save_load_roundtrip_witness :
    ∃ s2 p2, save_model ⟨some ⟨true, fun _ => 1/3⟩, ["a"], []⟩ "mdl" [] = .ok s2 ∧
      load_model "mdl" s2 = .ok p2 ∧
      predict_success_probability p2 [("a", 2)] =
        predict_success_probability ⟨some ⟨true, fun _ => 1/3⟩, ["a"], []⟩ [("a", 2)] ∧
      ∀ q q2, predict_success_probability ⟨some ⟨true, fun _ => 1/3⟩, ["a"], []⟩
          [("a", 2)] = .ok q →
        predict_success_probability p2 [("a", 2)] = .ok q2 →
        qabs (q2 - q) ≤ 1 / 1000000000 :=
  C5_save_load_roundtrip ⟨some ⟨true, fun _ => 1/3⟩, ["a"], []⟩ ⟨true, fun _ => 1/3⟩
    "mdl" [] [("a", 2)] rfl rfl

/--
C6: `save_model` writes the model file first and the metadata file last, so
a save interrupted after any prefix of its writes never shows the metadata
file without the model file (on a path pair not previously populated): the
absence of the metadata file is the signal of an incomplete save.  And
`load_model` takes `metadata["feature_names"]` before returning, so a
metadata artifact without the feature-name list is rejected with an error.
-/
theorem C6_metadata_written_last_and_load_validates :
    (∀ (p : Predictor) (m : MLModel) (path : String) (s : Store) (k : ℕ),
      storeGet? s (path ++ "_metadata.json") = none →
      (storeGet? (partialSave p m path s k) (path ++ "_metadata.json")).isSome = true →
      (storeGet? (partialSave p m path s k) (path ++ ".xgb")).isSome = true) ∧
    (∀ (path : String) (s : Store) (mf : MetaFile),
      storeGet? s (path ++ "_metadata.json") = some (.meta mf) →
      mf.feature_names = none →
      (load_model path s).isOk = false) := by
  refine ⟨?_, ?_⟩
  · intro p m path s k hmeta hsome
    match k with
    | 0 =>
      rw [show partialSave p m path s 0 = s from rfl, hmeta] at hsome
      cases hsome
    | 1 =>
      rw [show partialSave p m path s 1 =
          storePut s (path ++ ".xgb") (.model m) from rfl,
        storeGet?_put_ne (modelPath_ne_metaPath path), hmeta] at hsome
      cases hsome
    | (n + 2) =>
      have hps : partialSave p m path s (n + 2) =
          storePut (storePut s (path ++ ".xgb") (.model m)) (path ++ "_metadata.json")
            (.meta ⟨some p.feature_names, p.model_metadata⟩) := by
        simp [partialSave, saveWrites, List.take_succ_cons, List.take_nil]
      rw [hps, storeGet?_put_ne (Ne.symm (modelPath_ne_metaPath path)), storeGet?_put_self]
      rfl
  · intro path s mf hmeta hnone
    cases hm : storeGet? s (path ++ ".xgb") with
    | none => simp [load_model, hm, Except.isOk, Except.toBool]
    | some a =>
      cases a with
      | meta g => simp [load_model, hm, Except.isOk, Except.toBool]
      | model m0 => simp [load_model, hm, hmeta, hnone, Except.isOk, Except.toBool]

/--
C6 witness: `C6_metadata_written_last_and_load_validates` at a complete
2-write save on a fresh store, and at a load from a store whose metadata
artifact lacks the feature-name list.
-/
theorem C6_metadata_written_last_and_load_validates_witness :
    (storeGet? (partialSave ⟨some ⟨true, fun _ => 0⟩, ["a"], []⟩ ⟨true, fun _ => 0⟩
        "mdl" [] 2) ("mdl" ++ ".xgb")).isSome = true ∧
    (load_model "mdl" [("mdl" ++ ".xgb", .model ⟨true, fun _ => 0⟩),
        ("mdl" ++ "_metadata.json", .meta ⟨none, []⟩)]).isOk = false :=
  ⟨C6_metadata_written_last_and_load_validates.1 ⟨some ⟨true, fun _ => 0⟩, ["a"], []⟩
      ⟨true, fun _ => 0⟩ "mdl" [] 2 rfl rfl,
   C6_metadata_written_last_and_load_validates.2 "mdl"
      [("mdl" ++ ".xgb", .model ⟨true, fun _ => 0⟩),
       ("mdl" ++ "_metadata.json", .meta ⟨none, []⟩)] ⟨none, []⟩ rfl rfl⟩

/--
C7 counterexample: a dataset of 20 rows all labelled 1 (only positive
examples).  The claim says `train` must fail with an input error before
fitting, but none of the validation performed before `self.model.fit`
raises: the stratified splits accept a single class (sklearn only requires
every present class to have at least 2 members and each partition at least
as many rows as classes), so control reaches the fit call.
-/
theorem C7_counterexample_single_class_reaches_fit :
    ((List.replicate 20 (1 : ℤ)).all (fun x => x = 1)) = true ∧
    trainPreFit (List.replicate 20 1) = .ok () :=
  ⟨rfl, rfl⟩

/--
C7 amended: `train` does fail before fitting on an EMPTY dataset (the first
`train_test_split` rejects an empty train partition), but a dataset with
only positive examples is not rejected: for every single-class dataset with
at least 3 rows all pre-fit checks pass and fitting is attempted.
-/
theorem C7_train_prefit_validation :
    trainPreFit [] = .error "ValueError: the resulting train set will be empty" ∧
    (∀ n : ℕ, 3 ≤ n → trainPreFit (List.replicate n 1) = .ok ()) := by
  refine ⟨rfl, ?_⟩
  intro n hn
  have h0 : 0 < n := by omega
  have hded : (List.replicate n (1:ℤ)).dedup = [1] := dedup_replicate_one n (by omega)
  have hcnt : (List.replicate n (1:ℤ)).count 1 = n := List.count_replicate_self 1 n
  have hnt1 : ¬(n - ceilDiv n 5 = 0) := by simp only [ceilDiv]; omega
  have hlt2 : ¬(n < 2) := by omega
  have hnt2 : ¬(n - ceilDiv n 5 < 1) := by simp only [ceilDiv]; omega
  have hte2 : ¬(ceilDiv n 5 < 1) := by simp only [ceilDiv]; omega
  have ham : approximateMode [n] (n - ceilDiv n 5) n = [n - ceilDiv n 5] :=
    approximateMode_single n _ h0
  have hmt : ¬(n - ceilDiv n 5 - ceilDiv (n - ceilDiv n 5) 10 = 0) := by
    simp only [ceilDiv]; omega
  have hcnt2 : ¬(n - ceilDiv n 5 < 2) := by simp only [ceilDiv]; omega
  have hmt2 : ¬(n - ceilDiv n 5 - ceilDiv (n - ceilDiv n 5) 10 < 1) := by
    simp only [ceilDiv]; omega
  have hv2 : ¬(ceilDiv (n - ceilDiv n 5) 10 < 1) := by
    simp only [ceilDiv]; omega
  simp only [trainPreFit, List.length_replicate, hded, List.map_cons, List.map_nil, hcnt,
    List.any_cons, List.any_nil, decide_eq_true_eq, Bool.or_false, ham]
  rw [if_neg hnt1]
  simp only [List.length_cons, List.length_nil, Nat.zero_add, decide_eq_true_eq]
  rw [if_neg (by simpa using hlt2)]
  rw [if_neg (by simpa using hnt2), if_neg (by simpa using hte2)]
  simp only [List.zip_cons_cons, List.filter_cons, hnt1]
  rw [if_neg hmt]
  have hd1 : (decide (n - ceilDiv n 5 ≠ 0)) = true := by simpa using hnt1
  simp only [hd1, if_true, show ([] : List ℤ).zip ([] : List ℕ) = [] from rfl,
    List.filter_nil, List.map_cons, List.map_nil, List.any_cons, List.any_nil,
    Bool.or_false, decide_eq_true_eq, List.length_cons, List.length_nil, Nat.zero_add]
  rw [if_neg hcnt2, if_neg hmt2, if_neg hv2]

/--
C7 witness: `C7_train_prefit_validation` applied at a single-class dataset
of 5 rows: the pre-fit validation succeeds, so fitting is attempted.
-/
theorem C7_train_prefit_validation_witness :
    trainPreFit (List.replicate 5 1) = .ok () :=
  C7_train_prefit_validation.2 5 (by norm_num)

end UpCoach
